import Mathlib

/-!
Verification development for the gagiteck-python client library.

The embedding below is a shallow model of the core of the repository:
the tool-schema derivation mechanism (gagiteck/tool.py), the Agent
aggregate with optional conversational memory (gagiteck/agent.py), the
Client constructor with credential validation (gagiteck/client.py) and
the exception taxonomy (gagiteck/exceptions.py).  Python dictionaries
with a fixed key set become Lean structures; Python exceptions become an
explicit error inductive and fallible calls return Except; the mutable
conversation history of an Agent becomes explicit state passing (run
returns the updated Agent together with the request payload it built and
the response).  String formatting follows the source f-strings exactly;
the single-quote character is produced by sq below.
-/

namespace Gagiteck

/-- The single-quote character as a string, used by the f-string
formatting in the source (error messages and the placeholder response
content quote names with it). -/
def sq : String := String.singleton (Char.ofNat 39)

/-- Python str.strip with no argument: remove leading and trailing
whitespace characters (computed over the character list; Lean's
String.trim has the same meaning but does not reduce in the kernel). -/
def strip (s : String) : String :=
  (((s.data.dropWhile Char.isWhitespace).reverse.dropWhile Char.isWhitespace).reverse).asString

/-- A Python type object as far as _python_type_to_json can observe it:
one of the six types in its mapping table, or any other type. -/
inductive PyType
  | str
  | int
  | float
  | bool
  | list
  | dict
  | other (typeName : String)
deriving DecidableEq

/-- A runtime value passed to or returned from a tool function. -/
inductive Value
  | vstr (s : String)
  | vint (n : Int)
  | vnone
deriving DecidableEq

/-- The exception taxonomy of gagiteck/exceptions.py together with the
Python built-in ValueError raised by Tool.__call__ and an arbitrary
user-raised exception (any exception a bound callable may raise). -/
inductive PyError
  | valueError (msg : String)
  | authenticationError (msg : String)
  | apiError (code : Nat) (msg : String)
  | toolError (tool_name : String) (msg : String)
  | userError (msg : String)
deriving DecidableEq

/-- Whether an error is of the ToolError kind of gagiteck/exceptions.py. -/
def PyError.isToolError : PyError → Bool
  | PyError.toolError _ _ => true
  | _ => false

/-- One introspected parameter of a Python callable: its name, its type
hint as found by get_type_hints (none when unannotated), and whether its
inspect default differs from Parameter.empty. -/
structure Param where
  name : String
  hint : Option PyType
  hasDefault : Bool
deriving DecidableEq

/-- A Python function object as Tool.from_function introspects it:
__name__, __doc__, the signature parameters in declaration order, and
the callable behaviour itself (kwargs in, result or raised error out). -/
structure PyFunction where
  name : String
  doc : Option String
  params : List Param
  impl : List (String × Value) → Except PyError Value

/-- The per-parameter schema entry built by Tool.from_function:
a JSON type name and a synthesized description. -/
structure ParamProperty where
  type : String
  description : String
deriving DecidableEq

/-- The parameters dictionary built by Tool.from_function: always
type = "object"; properties in insertion order; the required key is
either absent (none) or a nonempty list of parameter names. -/
structure ToolSchema where
  type : String
  properties : List (String × ParamProperty)
  required : Option (List String)
deriving DecidableEq

/-- The required list of a schema, reading an omitted key as empty. -/
def ToolSchema.requiredList (s : ToolSchema) : List String :=
  s.required.getD []

/-- The Tool dataclass of gagiteck/tool.py. -/
structure Tool where
  name : String
  description : String
  parameters : ToolSchema
  function : Option PyFunction

/-- The inner function object of the wire dictionary of Tool.to_dict. -/
structure FunctionDict where
  name : String
  description : String
  parameters : ToolSchema
deriving DecidableEq

/-- The wire dictionary returned by Tool.to_dict. -/
structure ToolDict where
  type : String
  function : FunctionDict
deriving DecidableEq

/-- _python_type_to_json of gagiteck/tool.py: the fixed six-entry table;
type_map.get falls back to "string" for any type not in the table. -/
def _python_type_to_json : PyType → String
  | PyType.str => "string"
  | PyType.int => "integer"
  | PyType.float => "number"
  | PyType.bool => "boolean"
  | PyType.list => "array"
  | PyType.dict => "object"
  | PyType.other _ => "string"

/-- The parameter loop of Tool.from_function: walk the signature
parameters in declaration order, skip a parameter named "self", give a
parameter its hint mapped through _python_type_to_json (hints.get with
default str), and collect the names of parameters without a default.
Returns the (properties, required) pair the loop accumulates. -/
def buildSchema : List Param → List (String × ParamProperty) × List String
  | [] => ([], [])
  | p :: rest =>
    if p.name = "self" then buildSchema rest
    else
      let tail := buildSchema rest
      let json_type := _python_type_to_json (p.hint.getD PyType.str)
      ((p.name, ⟨json_type, "Parameter: " ++ p.name⟩) :: tail.1,
       if p.hasDefault then tail.2 else p.name :: tail.2)

/-- The schema construction of Tool.from_function: wrap the loop result
as {type: "object", properties, required}, where the required key is
set only when the collected list is nonempty (Python: if required:). -/
def deriveSchema (func : PyFunction) : ToolSchema :=
  let pr := buildSchema func.params
  { type := "object"
    properties := pr.1
    required := if pr.2.isEmpty then Option.none else Option.some pr.2 }

/-- Tool.from_function of gagiteck/tool.py: name from __name__,
description from __doc__ with the "Execute <name>" fallback and a final
strip, parameters from the schema derivation, function bound to the
callable itself. -/
def Tool.from_function (func : PyFunction) : Tool :=
  let name := func.name
  let description := func.doc.getD ("Execute " ++ name)
  { name := name
    description := strip description
    parameters := deriveSchema func
    function := Option.some func }

/-- Tool.to_dict of gagiteck/tool.py. -/
def Tool.to_dict (t : Tool) : ToolDict :=
  { type := "function"
    function := { name := t.name, description := t.description, parameters := t.parameters } }

/-- Tool.__call__ of gagiteck/tool.py: raise ValueError when no function
is bound, otherwise call the bound function and let its result or its
raised error pass through unchanged. -/
def Tool.call (t : Tool) (kwargs : List (String × Value)) : Except PyError Value :=
  match t.function with
  | Option.none =>
      Except.error (PyError.valueError
        ("Tool " ++ sq ++ t.name ++ sq ++ " has no function defined"))
  | Option.some f => f.impl kwargs

/-- One conversation history entry, a {role, content} dictionary. -/
structure Message where
  role : String
  content : String
deriving DecidableEq

/-- Python truthiness of an optional string: None and the empty string
are falsy. -/
def truthyStr : Option String → Bool
  | Option.none => false
  | Option.some s => !s.isEmpty

/-- The Agent dataclass of gagiteck/agent.py (configuration fields with
their source defaults plus the private conversation history, which is
empty at construction). -/
structure Agent where
  name : String
  model : String := "claude-3-sonnet"
  system_prompt : Option String := Option.none
  tools : List Tool := []
  memory_enabled : Bool := false
  max_tokens : Nat := 4096
  temperature : Float := 0.7
  _conversation_history : List Message := []

/-- A tool list entry as accepted by the Agent constructor: either an
already-built Tool or a bare callable. -/
inductive ToolArg
  | tool (t : Tool)
  | func (f : PyFunction)

/-- Agent.__post_init__: convert each bare callable into a Tool via
Tool.from_function; pass Tool values through; preserve order. -/
def normalizeTools (ts : List ToolArg) : List Tool :=
  ts.map fun t =>
    match t with
    | ToolArg.tool t => t
    | ToolArg.func f => Tool.from_function f

/-- The AgentResponse dataclass of gagiteck/agent.py. -/
structure AgentResponse where
  content : String
  model : String
  tool_calls : List (List (String × Value)) := []
  usage : Option (List (String × Nat)) := Option.none
deriving DecidableEq

/-- The placeholder response content built by Agent.run:
f"[Agent name would process: message]" with the name single-quoted. -/
def respContent (agentName message : String) : String :=
  "[Agent " ++ sq ++ agentName ++ sq ++ " would process: " ++ message ++ "]"

/-- The request dictionary built by Agent.run; the system and tools keys
are present only when added (Option.none models an absent key). -/
structure RequestPayload where
  model : String
  messages : List Message
  max_tokens : Nat
  temperature : Float
  system : Option String := Option.none
  tools : Option (List ToolDict) := Option.none

/-- What one Agent.run call produces: the Agent with its updated
history, the request payload it built, and the returned response. -/
structure RunResult where
  agent : Agent
  request : RequestPayload
  response : AgentResponse

/-- Agent.run of gagiteck/agent.py: append the user message to the
conversation history unconditionally; build the request payload (full
history as messages when memory is enabled, else the single current
message; system only when the prompt is truthy; tools only when the
tool list is nonempty); produce the placeholder response; append the
assistant entry only when memory is enabled.  The unused context
parameter of the source is dropped. -/
def Agent.run (a : Agent) (message : String) : RunResult :=
  let a1 : Agent :=
    { a with _conversation_history :=
        a._conversation_history ++ [⟨"user", message⟩] }
  let request : RequestPayload :=
    { model := a1.model
      messages :=
        if a1.memory_enabled then a1._conversation_history
        else [⟨"user", message⟩]
      max_tokens := a1.max_tokens
      temperature := a1.temperature
      system := if truthyStr a1.system_prompt then a1.system_prompt else Option.none
      tools :=
        if a1.tools.isEmpty then Option.none
        else Option.some (a1.tools.map Tool.to_dict) }
  let response : AgentResponse :=
    { content := respContent a1.name message
      model := a1.model
      tool_calls := [] }
  let a2 : Agent :=
    if a1.memory_enabled then
      { a1 with _conversation_history :=
          a1._conversation_history ++ [⟨"assistant", response.content⟩] }
    else a1
  ⟨a2, request, response⟩

/-- Agent.clear_memory of gagiteck/agent.py. -/
def Agent.clear_memory (a : Agent) : Agent :=
  { a with _conversation_history := [] }

/-- N successive Agent.run calls, threading the updated Agent. -/
def Agent.runAll (a : Agent) : List String → Agent
  | [] => a
  | m :: ms => Agent.runAll (Agent.run a m).agent ms

/-- The HTTP client value built by Client.__init__ (pure configuration
data; no request is made at construction). -/
structure HttpClient where
  base_url : String
  authorization : String
  content_type : String
  user_agent : String
  timeout : Nat
deriving DecidableEq

/-- The Client of gagiteck/client.py after a successful construction. -/
structure Client where
  api_key : String
  base_url : String
  timeout : Nat
  debug : Bool
  _http_client : HttpClient
deriving DecidableEq

/-- Client.DEFAULT_BASE_URL. -/
def DEFAULT_BASE_URL : String := "https://api.gagiteck.com/v1"

/-- Python str.startswith: prefix test, computed over the character
lists (Lean's String.startsWith has the same meaning but does not
reduce in the kernel). -/
def startswith (s pre : String) : Bool :=
  pre.data.isPrefixOf s.data

/-- Python str.rstrip with the single-character set "/": remove all
trailing slash characters. -/
def rstripSlash (s : String) : String :=
  ((s.data.reverse.dropWhile (fun c => c = '/')).reverse).asString

/-- Client.__init__ of gagiteck/client.py: reject a falsy (missing or
empty) api_key, then reject a key that does not start with "ggt_", both
with AuthenticationError; only then build the client state, including
the HTTP client configuration.  The constructor is pure: no network
request is part of it (requests happen only through a constructed
Client). -/
def Client.init (api_key : Option String) (base_url : Option String)
    (timeout : Nat) (debug : Bool) : Except PyError Client :=
  if !truthyStr api_key then
    Except.error (PyError.authenticationError "API key is required")
  else
    let key := api_key.getD ""
    if !startswith key "ggt_" then
      Except.error (PyError.authenticationError
        ("Invalid API key format. Key should start with " ++ sq ++ "ggt_" ++ sq))
    else
      let burl := rstripSlash (base_url.getD DEFAULT_BASE_URL)
      Except.ok
        { api_key := key
          base_url := burl
          timeout := timeout
          debug := debug
          _http_client :=
            { base_url := burl
              authorization := "Bearer " ++ key
              content_type := "application/json"
              user_agent := "gagiteck-python/0.1.0"
              timeout := timeout } }

/-! Concrete sample inputs used by witnesses and counterexamples. -/

/-- A concrete callable whose body raises an arbitrary exception. -/
def boomFunc : PyFunction :=
  { name := "boom"
    doc := Option.none
    params := []
    impl := fun _ => Except.error (PyError.userError "boom") }

/-- The greet callable of the spec scenario: one string-annotated
parameter, documentation text "Greets a person.". -/
def greet : PyFunction :=
  { name := "greet"
    doc := Option.some "Greets a person."
    params := [{ name := "name", hint := Option.some PyType.str, hasDefault := false }]
    impl := fun _ => Except.ok (Value.vstr "hi") }

/-- greet without a docstring. -/
def greetNoDoc : PyFunction :=
  { greet with doc := Option.none }

/-- greet with surrounding whitespace in its docstring. -/
def greetPadded : PyFunction :=
  { greet with doc := Option.some "  Greets a person.\n  " }

/-- A concrete callable with parameters (a: str, b: int = 0). -/
def abFunc : PyFunction :=
  { name := "ab"
    doc := Option.none
    params :=
      [ { name := "a", hint := Option.some PyType.str, hasDefault := false },
        { name := "b", hint := Option.some PyType.int, hasDefault := true } ]
    impl := fun _ => Except.ok Value.vnone }

/-- A concrete callable with zero parameters. -/
def zeroParamsFunc : PyFunction :=
  { name := "ping"
    doc := Option.none
    params := []
    impl := fun _ => Except.ok Value.vnone }

/-- A concrete callable all of whose parameters have defaults. -/
def allDefaultsFunc : PyFunction :=
  { name := "opts"
    doc := Option.none
    params :=
      [ { name := "x", hint := Option.some PyType.int, hasDefault := true },
        { name := "y", hint := Option.none, hasDefault := true } ]
    impl := fun _ => Except.ok Value.vnone }

/-- A concrete callable with one unannotated and one unknown-annotated
parameter, both without defaults. -/
def oddFunc : PyFunction :=
  { name := "odd"
    doc := Option.none
    params :=
      [ { name := "u", hint := Option.none, hasDefault := false },
        { name := "v", hint := Option.some (PyType.other "MyClass"), hasDefault := false } ]
    impl := fun _ => Except.ok Value.vnone }

/-- A concrete Tool with no bound function. -/
def unboundTool : Tool :=
  { name := "t"
    description := "d"
    parameters := { type := "object", properties := [], required := Option.none }
    function := Option.none }

/-- A concrete Agent with memory disabled (the dataclass default). -/
def agentNoMem : Agent :=
  { name := "a" }

/-- A concrete Agent with memory enabled. -/
def agentMem : Agent :=
  { name := "a", memory_enabled := true }

/-! Helper lemmas shared by the claim theorems. -/

/-- One run call appends the user entry to the history unconditionally,
then the assistant entry exactly when memory is enabled. -/
lemma run_history (a : Agent) (m : String) :
    ((a.run m).agent)._conversation_history =
      (a._conversation_history ++ [⟨"user", m⟩]) ++
        (if a.memory_enabled then [⟨"assistant", respContent a.name m⟩] else []) := by
  unfold Agent.run
  by_cases h : a.memory_enabled <;> simp [h, respContent]

/-- run never changes the configuration fields it reads. -/
lemma run_config (a : Agent) (m : String) :
    ((a.run m).agent).memory_enabled = a.memory_enabled ∧ ((a.run m).agent).name = a.name := by
  unfold Agent.run
  by_cases h : a.memory_enabled <;> simp [h]

/-- The request payload messages of one run call. -/
lemma run_request_messages (a : Agent) (m : String) :
    (a.run m).request.messages =
      if a.memory_enabled then a._conversation_history ++ [⟨"user", m⟩]
      else [⟨"user", m⟩] := by
  unfold Agent.run
  by_cases h : a.memory_enabled <;> simp [h]

/-- With memory disabled, N run calls leave exactly the N user entries,
in call order, on top of the starting history. -/
lemma runAll_history_disabled (msgs : List String) (a : Agent)
    (hm : a.memory_enabled = false) :
    (a.runAll msgs)._conversation_history =
      a._conversation_history ++ msgs.map (fun m => (⟨"user", m⟩ : Message)) := by
  induction msgs generalizing a with
  | nil => simp [Agent.runAll]
  | cons m ms ih =>
    rw [Agent.runAll, ih ((a.run m).agent) ((run_config a m).1.trans hm),
      run_history, hm]
    simp

/-- With memory enabled, N run calls leave one user entry followed by
one assistant entry per call, in call order. -/
lemma runAll_history_enabled (msgs : List String) (a : Agent)
    (hm : a.memory_enabled = true) :
    (a.runAll msgs)._conversation_history =
      a._conversation_history ++
        msgs.flatMap (fun m => [⟨"user", m⟩, ⟨"assistant", respContent a.name m⟩]) := by
  induction msgs generalizing a with
  | nil => simp [Agent.runAll]
  | cons m ms ih =>
    rw [Agent.runAll, ih ((a.run m).agent) ((run_config a m).1.trans hm),
      run_history, hm, (run_config a m).2]
    simp

/-- Flattening two-element blocks doubles the length. -/
lemma length_flatMap_pairs (f g : String → Message) (msgs : List String) :
    (msgs.flatMap (fun m => [f m, g m])).length = 2 * msgs.length := by
  induction msgs with
  | nil => rfl
  | cons m ms ih =>
    simp only [List.flatMap_cons, List.length_append, ih, List.length_cons,
      List.length_nil]
    ring

/-- The required list accumulated by the parameter loop is exactly the
names of the non-self parameters without a default, in declaration
order. -/
lemma buildSchema_required (params : List Param) :
    (buildSchema params).2 =
      ((params.filter (fun p => !(p.name == "self"))).filter
        (fun p => !p.hasDefault)).map Param.name := by
  induction params with
  | nil => rfl
  | cons p rest ih =>
    by_cases hs : p.name = "self"
    · simp [buildSchema, hs, ih]
    · by_cases hd : p.hasDefault <;> simp [buildSchema, hs, hd, ih]

/-- Reading the (possibly omitted) required key back as a list recovers
the accumulated required list. -/
lemma deriveSchema_requiredList (f : PyFunction) :
    (deriveSchema f).requiredList = (buildSchema f.params).2 := by
  unfold deriveSchema ToolSchema.requiredList
  by_cases h : (buildSchema f.params).2.isEmpty
  · simp [h, List.isEmpty_iff.mp h]
  · simp [h]

/-- Any non-self parameter whose hint is absent or outside the mapping
table contributes a string-typed property entry. -/
lemma buildSchema_mem_string (params : List Param) (p : Param)
    (hmem : p ∈ params) (hself : ¬ p.name = "self")
    (hhint : p.hint = Option.none ∨ ∃ s, p.hint = Option.some (PyType.other s)) :
    (p.name, (⟨"string", "Parameter: " ++ p.name⟩ : ParamProperty))
      ∈ (buildSchema params).1 := by
  induction params with
  | nil => cases hmem
  | cons q rest ih =>
    rcases List.mem_cons.mp hmem with hq | hrest
    · subst hq
      have hjson : _python_type_to_json (p.hint.getD PyType.str) = "string" := by
        rcases hhint with h0 | ⟨s, h0⟩ <;> rw [h0] <;> rfl
      simp [buildSchema, hself, hjson]
    · by_cases hq : q.name = "self"
      · simpa [buildSchema, hq] using ih hrest
      · simp [buildSchema, hq, List.mem_cons]
        exact Or.inr (ih hrest)

/-! Claim theorems. -/

/-- C1 counterexample: an Agent constructed with memory_enabled=false
does not have history length 0 after one run call — run appends the
user entry unconditionally, so the length is 1. -/
theorem c1_memory_disabled_counterexample :
    ¬ ((agentNoMem.run "hi").agent)._conversation_history.length = 0 := by
  decide

/-- C1 (amended): for every Agent constructed with memory_enabled=false
(empty starting history) and every message sequence, after N calls to
run the conversation history has length exactly N, one user entry per
call in call order — not 0. -/
theorem c1_memory_disabled_history (a : Agent) (msgs : List String)
    (hm : a.memory_enabled = false) (h0 : a._conversation_history = []) :
    (a.runAll msgs)._conversation_history
        = msgs.map (fun m => (⟨"user", m⟩ : Message))
      ∧ (a.runAll msgs)._conversation_history.length = msgs.length := by
  have h := runAll_history_disabled msgs a hm
  rw [h0] at h
  simp only [List.nil_append] at h
  exact ⟨h, by rw [h]; simp⟩

/-- Witness for C1 at a concrete agent and two messages. -/
theorem c1_memory_disabled_history_witness :
    (agentNoMem.runAll ["hi", "yo"])._conversation_history
        = ["hi", "yo"].map (fun m => (⟨"user", m⟩ : Message))
      ∧ (agentNoMem.runAll ["hi", "yo"])._conversation_history.length
        = (["hi", "yo"] : List String).length :=
  c1_memory_disabled_history agentNoMem ["hi", "yo"] rfl rfl

/-- C2 counterexample: a bound tool whose function raises is not
propagated wrapped as a ToolError-kind error carrying the tool name —
the raised error comes back exactly as raised, of user-exception kind. -/
theorem c2_counterexample :
    (Tool.from_function boomFunc).call [] = Except.error (PyError.userError "boom")
      ∧ PyError.isToolError (PyError.userError "boom") = false :=
  ⟨rfl, rfl⟩

/-- C2 (amended): invoking a Tool with no bound function fails with the
built-in ValueError carrying the tool name (never at construction or
serialization, which are total); when a function is bound, the call
returns exactly what the function returns, so a raised error propagates
to the caller unchanged — not wrapped into the ToolError kind. -/
theorem c2_call_error_propagation (t : Tool) (kwargs : List (String × Value)) :
    (t.function = Option.none →
      t.call kwargs = Except.error (PyError.valueError
        ("Tool " ++ sq ++ t.name ++ sq ++ " has no function defined")))
      ∧ (∀ f, t.function = Option.some f → t.call kwargs = f.impl kwargs) := by
  constructor
  · intro h
    unfold Tool.call
    rw [h]
  · intro f h
    unfold Tool.call
    rw [h]

/-- Witness for C2 at a concrete unbound tool. -/
theorem c2_call_error_propagation_witness :
    Tool.call unboundTool [] = Except.error (PyError.valueError
      ("Tool " ++ sq ++ "t" ++ sq ++ " has no function defined")) :=
  (c2_call_error_propagation unboundTool []).1 rfl

/-- C3: for every Agent constructed with memory_enabled=true (empty
starting history) and every sequence of N run calls, the history
afterwards is exactly one user entry followed by one assistant entry
per call, in call order, hence of length 2N. -/
theorem c3_memory_enabled_history (a : Agent) (msgs : List String)
    (hm : a.memory_enabled = true) (h0 : a._conversation_history = []) :
    (a.runAll msgs)._conversation_history
        = msgs.flatMap (fun m =>
            [⟨"user", m⟩, ⟨"assistant", respContent a.name m⟩])
      ∧ (a.runAll msgs)._conversation_history.length = 2 * msgs.length := by
  have h := runAll_history_enabled msgs a hm
  rw [h0] at h
  simp only [List.nil_append] at h
  exact ⟨h, by rw [h, length_flatMap_pairs]⟩

/-- Witness for C3 at a concrete agent and two messages. -/
theorem c3_memory_enabled_history_witness :
    (agentMem.runAll ["x", "y"])._conversation_history
        = (["x", "y"] : List String).flatMap (fun m =>
            [⟨"user", m⟩, ⟨"assistant", respContent agentMem.name m⟩])
      ∧ (agentMem.runAll ["x", "y"])._conversation_history.length
        = 2 * (["x", "y"] : List String).length :=
  c3_memory_enabled_history agentMem ["x", "y"] rfl rfl

/-- C4: for every callable f, Tool.from_function(f).to_dict() is the
wire object {type: "function", function: {name, description,
parameters}} whose parameters component is exactly the schema produced
by schema derivation on f; to_dict is a pure function of the Tool, so
it is deterministic and side-effect free. -/
theorem c4_to_dict_round_trip (f : PyFunction) :
    (Tool.from_function f).to_dict =
      { type := "function"
        function :=
          { name := f.name
            description := strip (f.doc.getD ("Execute " ++ f.name))
            parameters := deriveSchema f } } :=
  rfl

/-- C5: schema derivation on greet(name: str) with docstring
"Greets a person." yields exactly the scenario values; the description
is the stripped docstring, and falls back to "Execute greet" when the
docstring is absent. -/
theorem c5_greet_scenario :
    (Tool.from_function greet).name = "greet"
      ∧ (Tool.from_function greet).description = "Greets a person."
      ∧ (Tool.from_function greet).parameters =
          { type := "object"
            properties := [("name", ⟨"string", "Parameter: name"⟩)]
            required := Option.some ["name"] }
      ∧ (Tool.from_function greetPadded).description = "Greets a person."
      ∧ (Tool.from_function greetNoDoc).description = "Execute greet" := by
  refine ⟨rfl, by decide, rfl, by decide, by decide⟩

/-- C6: derivation on (a: str, b: int = 0) yields string and integer
properties with required = [a]; in general, among the parameters the
loop considers (all except one named self), a name appears in the
required list exactly when the parameter has no default, in declaration
order. -/
theorem c6_required_no_default :
    (deriveSchema abFunc).properties =
        [("a", ⟨"string", "Parameter: a"⟩), ("b", ⟨"integer", "Parameter: b"⟩)]
      ∧ (deriveSchema abFunc).required = Option.some ["a"]
      ∧ ∀ f : PyFunction,
          (deriveSchema f).requiredList =
            ((f.params.filter (fun p => !(p.name == "self"))).filter
              (fun p => !p.hasDefault)).map Param.name := by
  refine ⟨rfl, rfl, fun f => ?_⟩
  rw [deriveSchema_requiredList, buildSchema_required]

/-- C7: when every parameter of a callable has a default value, the
derived schema omits the required key entirely (it is absent, not an
empty list); in particular a zero-parameter callable derives an empty
properties mapping and no required key. -/
theorem c7_required_omitted (f : PyFunction)
    (h : ∀ p ∈ f.params, p.hasDefault = true) :
    (deriveSchema f).required = Option.none
      ∧ (deriveSchema zeroParamsFunc).properties = []
      ∧ (deriveSchema zeroParamsFunc).required = Option.none := by
  refine ⟨?_, rfl, rfl⟩
  have hreq : (buildSchema f.params).2 = [] := by
    rw [buildSchema_required]
    have : (f.params.filter (fun p => !(p.name == "self"))).filter
        (fun p => !p.hasDefault) = [] := by
      rw [List.filter_eq_nil_iff]
      intro p hp
      have hmem : p ∈ f.params := List.mem_of_mem_filter hp
      simp [h p hmem]
    rw [this]
    rfl
  unfold deriveSchema
  simp [hreq]

/-- Witness for C7 at a concrete callable all of whose parameters have
defaults. -/
theorem c7_required_omitted_witness :
    (deriveSchema allDefaultsFunc).required = Option.none
      ∧ (deriveSchema zeroParamsFunc).properties = []
      ∧ (deriveSchema zeroParamsFunc).required = Option.none :=
  c7_required_omitted allDefaultsFunc (by decide)

/-- C8: constructing a Client with an API key that does not start with
"ggt_" — including a missing key — fails with AuthenticationError; the
constructor of the embedding is pure (the HTTP client value it would
build is configuration data only), so the failure precedes any network
access, which is reachable only through a constructed Client. -/
theorem c8_malformed_key_auth (api_key : Option String)
    (h : ∀ s, api_key = Option.some s → startswith s "ggt_" = false)
    (base_url : Option String) (timeout : Nat) (debug : Bool) :
    ∃ msg, Client.init api_key base_url timeout debug
      = Except.error (PyError.authenticationError msg) := by
  cases api_key with
  | none => exact ⟨"API key is required", rfl⟩
  | some s =>
    by_cases he : s.isEmpty
    · refine ⟨"API key is required", ?_⟩
      unfold Client.init
      simp [truthyStr, he]
    · refine ⟨"Invalid API key format. Key should start with " ++ sq ++ "ggt_" ++ sq, ?_⟩
      unfold Client.init
      simp [truthyStr, he, h s rfl]

/-- Witness for C8 at the malformed key of the repository test suite. -/
theorem c8_malformed_key_auth_witness :
    ∃ msg, Client.init (Option.some "invalid_key") Option.none 30 false
      = Except.error (PyError.authenticationError msg) :=
  c8_malformed_key_auth (Option.some "invalid_key")
    (fun s hs => by cases hs; decide) Option.none 30 false

/-- C9: a parameter whose annotation is absent, or whose annotation is
any type outside the six-entry mapping table, is assigned the string
kind by schema derivation. -/
theorem c9_unknown_hint_string (f : PyFunction) (p : Param)
    (hmem : p ∈ f.params) (hself : ¬ p.name = "self")
    (hhint : p.hint = Option.none ∨ ∃ s, p.hint = Option.some (PyType.other s)) :
    (p.name, (⟨"string", "Parameter: " ++ p.name⟩ : ParamProperty))
      ∈ (deriveSchema f).properties :=
  buildSchema_mem_string f.params p hmem hself hhint

/-- Witness for C9 at a concrete callable with an unannotated
parameter. -/
theorem c9_unknown_hint_string_witness :
    (("u", (⟨"string", "Parameter: u"⟩ : ParamProperty))
      ∈ (deriveSchema oddFunc).properties) :=
  c9_unknown_hint_string oddFunc
    { name := "u", hint := Option.none, hasDefault := false }
    (by decide) (by decide) (Or.inl rfl)

/-- C10: run appends the user entry to the internal history
unconditionally, regardless of memory_enabled; consequently with
memory_enabled=false the internal history grows by one per call (length
start + N after N calls), while the request payload messages list holds
only the single current message. -/
theorem c10_unconditional_user_append (a : Agent) (m : String) (msgs : List String) :
    ((a.run m).agent)._conversation_history =
        (a._conversation_history ++ [⟨"user", m⟩]) ++
          (if a.memory_enabled then [⟨"assistant", respContent a.name m⟩] else [])
      ∧ (a.memory_enabled = false →
          (a.runAll msgs)._conversation_history.length
              = a._conversation_history.length + msgs.length
            ∧ (a.run m).request.messages = [⟨"user", m⟩]) := by
  refine ⟨run_history a m, fun hm => ⟨?_, ?_⟩⟩
  · rw [runAll_history_disabled msgs a hm]
    simp
  · rw [run_request_messages, hm]
    simp

/-- Witness for C10 at a concrete memory-disabled agent. -/
theorem c10_unconditional_user_append_witness :
    ((agentNoMem.run "hi").agent)._conversation_history =
        (agentNoMem._conversation_history ++ [⟨"user", "hi"⟩]) ++
          (if agentNoMem.memory_enabled then
            [⟨"assistant", respContent agentNoMem.name "hi"⟩]
          else [])
      ∧ ((agentNoMem.runAll ["x"])._conversation_history.length
            = agentNoMem._conversation_history.length + (["x"] : List String).length
          ∧ (agentNoMem.run "hi").request.messages = [⟨"user", "hi"⟩]) :=
  ⟨(c10_unconditional_user_append agentNoMem "hi" ["x"]).1,
   (c10_unconditional_user_append agentNoMem "hi" ["x"]).2 rfl⟩

end Gagiteck
